import Mathlib

/-!
Verification of the GHSMC-PINO-Demo signal generator and diagnostic
evaluator (src/STapp.py), embedded over ℚ.

The script's floating-point arithmetic is modelled with exact rationals.
Two library functions are abstracted as parameters:
* `sin : ℚ → ℚ` stands for `np.sin`;
* the Gaussian draws `np.random.normal(0, sigma, steps)` are modelled as
  `sigma * z i` where `z : ℕ → ℚ` is the vector of unit (standard-normal)
  samples: a `Normal(0, sigma)` sample is exactly `sigma` times a
  `Normal(0, 1)` sample, so the standard-deviation argument of each call
  stays visible in the embedding while the distributional aspect of the
  draw is abstracted.
The pH channel and the conductivity channel perform two separate calls to
the random source, so each takes its own unit-draw vector.
-/

namespace STapp

/-- Number of samples: `steps = 200` (line 54 of STapp.py). -/
def steps : ℕ := 200

/-- Time grid `t = np.linspace(0, 100, steps)` (line 55): 200 evenly
spaced points over `[0, 100]`, so `t i = 100 * i / 199`. -/
def t (i : ℕ) : ℚ := 100 * i / 199

/-- The three slider inputs (lines 39, 43, 47). -/
structure SimulationInputs where
  gasLoad : ℚ
  foulingFactor : ℚ
  noiseLevel : ℚ
deriving Repr, DecidableEq

/-- The slider ranges: `gas_load ∈ [0,1]`, `fouling_factor ∈ [0,1]`,
`noise_level ∈ [0.01, 0.1]`. -/
def ValidInputs (p : SimulationInputs) : Prop :=
  0 ≤ p.gasLoad ∧ p.gasLoad ≤ 1 ∧
    0 ≤ p.foulingFactor ∧ p.foulingFactor ≤ 1 ∧
    1/100 ≤ p.noiseLevel ∧ p.noiseLevel ≤ 1/10

instance : DecidablePred ValidInputs := fun p => by
  unfold ValidInputs; infer_instance

/-- One sample of `np.random.normal(0, sigma, steps)`: the standard
deviation times the unit draw. -/
def normalDraw (z : ℕ → ℚ) (sigma : ℚ) (i : ℕ) : ℚ := sigma * z i

/-- Target curve `pino_ph_target = 8.5 - (gas_load * 4.0) + 0.3 *
np.sin(t/8)` (line 60). -/
def pino_ph_target (sin : ℚ → ℚ) (gas_load : ℚ) (i : ℕ) : ℚ :=
  8.5 - gas_load * 4.0 + 0.3 * sin (t i / 8)

/-- Bias term `ph_drift = fouling_factor * 1.5` (line 62). -/
def ph_drift (fouling_factor : ℚ) : ℚ := fouling_factor * 1.5

/-- Reading `sensor_ph_reading = pino_ph_target + ph_drift +
np.random.normal(0, noise_level, steps)` (line 63). -/
def sensor_ph_reading (sin : ℚ → ℚ) (z : ℕ → ℚ) (p : SimulationInputs)
    (i : ℕ) : ℚ :=
  pino_ph_target sin p.gasLoad i + ph_drift p.foulingFactor +
    normalDraw z p.noiseLevel i

/-- Target curve `pino_cond_target = 200 + (gas_load * 1800) + 50 *
np.sin(t/5)` (line 68). -/
def pino_cond_target (sin : ℚ → ℚ) (gas_load : ℚ) (i : ℕ) : ℚ :=
  200 + gas_load * 1800 + 50 * sin (t i / 5)

/-- Bias term `cond_attenuation = fouling_factor * 800` (line 70). -/
def cond_attenuation (fouling_factor : ℚ) : ℚ := fouling_factor * 800

/-- The pre-clamp conductivity reading: `pino_cond_target -
cond_attenuation + np.random.normal(0, noise_level*100, steps)`
(line 71). -/
def sensor_cond_reading_raw (sin : ℚ → ℚ) (z : ℕ → ℚ)
    (p : SimulationInputs) (i : ℕ) : ℚ :=
  pino_cond_target sin p.gasLoad i - cond_attenuation p.foulingFactor +
    normalDraw z (p.noiseLevel * 100) i

/-- Clamped reading `sensor_cond_reading = np.maximum(sensor_cond_reading,
0)` (line 73). -/
def sensor_cond_reading (sin : ℚ → ℚ) (z : ℕ → ℚ) (p : SimulationInputs)
    (i : ℕ) : ℚ :=
  max (sensor_cond_reading_raw sin z p i) 0

/-- The last index of each sequence, `[-1]` in the script. -/
def lastIdx : ℕ := steps - 1

/-- Error `ph_error = abs(sensor_ph_reading[-1] - pino_ph_target[-1])`
(line 84). -/
def ph_error (sin : ℚ → ℚ) (z : ℕ → ℚ) (p : SimulationInputs) : ℚ :=
  |sensor_ph_reading sin z p lastIdx - pino_ph_target sin p.gasLoad lastIdx|

/-- Health score `ph_health = max(0, 100 - ph_error * 30)` (line 85). -/
def ph_health (sin : ℚ → ℚ) (z : ℕ → ℚ) (p : SimulationInputs) : ℚ :=
  max 0 (100 - ph_error sin z p * 30)

/-- Error `cond_error = abs(sensor_cond_reading[-1] - pino_cond_target[-1])`
(line 119), computed from the clamped reading. -/
def cond_error (sin : ℚ → ℚ) (z : ℕ → ℚ) (p : SimulationInputs) : ℚ :=
  |sensor_cond_reading sin z p lastIdx - pino_cond_target sin p.gasLoad lastIdx|

/-- Health score `cond_health = max(0, 100 - cond_error / 10)` (line 120). -/
def cond_health (sin : ℚ → ℚ) (z : ℕ → ℚ) (p : SimulationInputs) : ℚ :=
  max 0 (100 - cond_error sin z p / 10)

/-- The pH tab shows exactly one of two banners (lines 109-112). -/
inductive PhStatus where
  | drift_critical : PhStatus
  | nominal : PhStatus
deriving Repr, DecidableEq

/-- Banner choice `if ph_error > 1.0: st.error(...) else: st.success(...)`
(lines 109-112). -/
def ph_status (sin : ℚ → ℚ) (z : ℕ → ℚ) (p : SimulationInputs) :
    PhStatus :=
  if ph_error sin z p > 1.0 then PhStatus.drift_critical
  else PhStatus.nominal

/-- Which banners the conductivity tab shows (lines 148-154). -/
structure CondReport where
  high_saturation_risk : Bool
  scaling_critical : Bool
  nominal : Bool
deriving Repr, DecidableEq

/-- Lines 148-154: an independent `if pino_cond_target[-1] > 1800`
warning, then `if sensor_cond_reading[-1] < pino_cond_target[-1] * 0.7`
with an `elif cond_health > 90` success branch. -/
def cond_report (sin : ℚ → ℚ) (z : ℕ → ℚ) (p : SimulationInputs) :
    CondReport :=
  { high_saturation_risk := decide (pino_cond_target sin p.gasLoad lastIdx > 1800)
  , scaling_critical :=
      decide (sensor_cond_reading sin z p lastIdx <
        pino_cond_target sin p.gasLoad lastIdx * 0.7)
  , nominal :=
      if sensor_cond_reading sin z p lastIdx <
          pino_cond_target sin p.gasLoad lastIdx * 0.7 then false
      else decide (cond_health sin z p > 90) }

/-- One channel of the generator's output. -/
structure ChannelSeries where
  target : ℕ → ℚ
  reading : ℕ → ℚ

/-- Modelled from the spec: the script calls the global `np.random`
source without a seed, but §8 of the spec requires the noise source to
be seedable, with a fixed seed giving a reproducible stream. `stream
seed` is the deterministic sequence of unit draws produced from `seed`;
the pH call consumes its first `steps` entries and the conductivity
call the next `steps`. Everything else is the generator of STapp.py
lines 54-73. -/
def generate (sin : ℚ → ℚ) (stream : ℕ → ℕ → ℚ) (seed : ℕ)
    (p : SimulationInputs) : ChannelSeries × ChannelSeries :=
  ({ target := fun i => pino_ph_target sin p.gasLoad i
   , reading := fun i => sensor_ph_reading sin (stream seed) p i },
   { target := fun i => pino_cond_target sin p.gasLoad i
   , reading := fun i =>
       sensor_cond_reading sin (fun j => stream seed (steps + j)) p i })

end STapp

namespace STapp

/-- Claim C1: with `t` the grid of 200 evenly spaced points over
`[0, 100]` (starting at 0, ending at 100, constant spacing `100/199`),
every index satisfies `target i = 8.5 - gasLoad*4.0 + 0.3*sin (t i / 8)`
and `reading i = target i + foulingFactor*1.5 + n i`, where the
`Normal(0, noiseLevel)` sample `n i` is `noiseLevel` times the unit
draw `z i`. -/
theorem C1_ph_generator (sin : ℚ → ℚ) (z : ℕ → ℚ)
    (p : SimulationInputs) (i : ℕ) :
    t 0 = 0 ∧ t (steps - 1) = 100 ∧
    (∀ j : ℕ, t (j + 1) - t j = 100 / 199) ∧
    pino_ph_target sin p.gasLoad i =
      8.5 - p.gasLoad * 4.0 + 0.3 * sin (t i / 8) ∧
    sensor_ph_reading sin z p i =
      pino_ph_target sin p.gasLoad i + p.foulingFactor * 1.5 +
        p.noiseLevel * z i := by
  refine ⟨by norm_num [t], by norm_num [t, steps], ?_, rfl, rfl⟩
  intro j
  simp only [t]
  push_cast
  ring

/-- Claim C2: every index satisfies `target i = 200 + gasLoad*1800 +
50*sin (t i / 5)` and `reading i = max 0 (target i - foulingFactor*800
+ n i)`, where the `Normal(0, noiseLevel*100)` sample `n i` is
`noiseLevel*100` times the unit draw `z i`. -/
theorem C2_cond_generator (sin : ℚ → ℚ) (z : ℕ → ℚ)
    (p : SimulationInputs) (i : ℕ) :
    pino_cond_target sin p.gasLoad i =
      200 + p.gasLoad * 1800 + 50 * sin (t i / 5) ∧
    sensor_cond_reading sin z p i =
      max 0 (pino_cond_target sin p.gasLoad i - p.foulingFactor * 800 +
        p.noiseLevel * 100 * z i) := by
  refine ⟨rfl, ?_⟩
  show max _ 0 = _
  rw [max_comm]
  rfl

/-- Claim C3: per channel, the evaluator takes the absolute error of the
final samples (index 199) and scores health as `max 0 (100 - error*30)`
for pH and `max 0 (100 - error/10)` for conductivity. -/
theorem C3_diagnostics (sin : ℚ → ℚ) (zp zc : ℕ → ℚ)
    (p : SimulationInputs) :
    ph_error sin zp p =
      |sensor_ph_reading sin zp p 199 - pino_ph_target sin p.gasLoad 199| ∧
    ph_health sin zp p = max 0 (100 - ph_error sin zp p * 30) ∧
    cond_error sin zc p =
      |sensor_cond_reading sin zc p 199 - pino_cond_target sin p.gasLoad 199| ∧
    cond_health sin zc p = max 0 (100 - cond_error sin zc p / 10) :=
  ⟨rfl, rfl, rfl, rfl⟩

/-- Claim C4: the pH tab reports `PH_DRIFT_CRITICAL` exactly when
`ph_error > 1.0`, reports nominal exactly when `ph_error ≤ 1.0`, and
the two statuses are mutually exclusive and exhaustive. -/
theorem C4_ph_alert (sin : ℚ → ℚ) (z : ℕ → ℚ) (p : SimulationInputs) :
    (ph_status sin z p = PhStatus.drift_critical ↔
      ph_error sin z p > 1.0) ∧
    (ph_status sin z p = PhStatus.nominal ↔ ph_error sin z p ≤ 1.0) ∧
    (ph_status sin z p = PhStatus.drift_critical ↔
      ¬ ph_status sin z p = PhStatus.nominal) := by
  by_cases h : ph_error sin z p > 1.0
  · simp [ph_status, h, not_le.mpr h]
  · simp [ph_status, h, not_lt.mp h]

/-- Claim C5: `HIGH_SATURATION_RISK` fires exactly when the final
conductivity target exceeds 1800, `SCALING_CRITICAL` fires exactly when
the final reading is below 0.7 times the final target, and the two
conditions are independent: some valid input makes both fire at once. -/
theorem C5_cond_alerts (sin : ℚ → ℚ) (z : ℕ → ℚ) (p : SimulationInputs) :
    ((cond_report sin z p).high_saturation_risk = true ↔
      pino_cond_target sin p.gasLoad lastIdx > 1800) ∧
    ((cond_report sin z p).scaling_critical = true ↔
      sensor_cond_reading sin z p lastIdx <
        pino_cond_target sin p.gasLoad lastIdx * 0.7) ∧
    (∃ (s : ℚ → ℚ) (w : ℕ → ℚ) (q : SimulationInputs), ValidInputs q ∧
      (cond_report s w q).high_saturation_risk = true ∧
      (cond_report s w q).scaling_critical = true) := by
  refine ⟨by simp [cond_report], by simp [cond_report], ?_⟩
  refine ⟨fun _ => 0, fun _ => 0, ⟨1, 1, 1/100⟩, ?_, ?_, ?_⟩
  · norm_num [ValidInputs]
  · norm_num [cond_report, pino_cond_target]
  · norm_num [cond_report, pino_cond_target, sensor_cond_reading,
      sensor_cond_reading_raw, cond_attenuation, normalDraw, max_def]

/-- Claim C6: the conductivity tab reports nominal exactly when
`SCALING_CRITICAL` is not set and health exceeds 90; when
`SCALING_CRITICAL` is not set and health is at most 90, no nominal
status is produced either. -/
theorem C6_cond_nominal (sin : ℚ → ℚ) (z : ℕ → ℚ)
    (p : SimulationInputs) :
    ((cond_report sin z p).nominal = true ↔
      (cond_report sin z p).scaling_critical = false ∧
        cond_health sin z p > 90) ∧
    ((cond_report sin z p).nominal = false ↔
      (cond_report sin z p).scaling_critical = true ∨
        cond_health sin z p ≤ 90) := by
  by_cases h : sensor_cond_reading sin z p lastIdx <
      pino_cond_target sin p.gasLoad lastIdx * 0.7
  · simp [cond_report, h]
  · simp [cond_report, h, not_lt]

/-- Claim C7: for every valid input and every noise draw, every element
of the conductivity reading sequence is nonnegative. -/
theorem C7_cond_nonneg (sin : ℚ → ℚ) (z : ℕ → ℚ)
    (p : SimulationInputs) (h : ValidInputs p) (i : ℕ) :
    0 ≤ sensor_cond_reading sin z p i :=
  le_max_right _ _

/-- Witness for C7 at `gasLoad = 1/2`, `foulingFactor = 1/5`,
`noiseLevel = 1/50`, index 0, zero sine and zero noise. -/
theorem C7_cond_nonneg_witness :
    ValidInputs ⟨1/2, 1/5, 1/50⟩ ∧
    0 ≤ sensor_cond_reading (fun _ => 0) (fun _ => 0) ⟨1/2, 1/5, 1/50⟩ 0 :=
  ⟨by norm_num [ValidInputs],
    C7_cond_nonneg (fun _ => 0) (fun _ => 0) ⟨1/2, 1/5, 1/50⟩
      (by norm_num [ValidInputs]) 0⟩

/-- Claim C8: holding the gas load `g`, the noise level `n`, the time
index and the noise samples fixed, raising the fouling factor from `f`
to `f + d` with `d > 0` raises the pH reading by exactly `1.5*d` and
lowers the pre-clamp conductivity reading by exactly `800*d`, so the
two readings move strictly in opposite directions. -/
theorem C8_fouling_opposite (sin : ℚ → ℚ) (zp zc : ℕ → ℚ)
    (g f n d : ℚ) (hd : 0 < d) (i : ℕ) :
    sensor_ph_reading sin zp ⟨g, f + d, n⟩ i =
      sensor_ph_reading sin zp ⟨g, f, n⟩ i + 1.5 * d ∧
    sensor_cond_reading_raw sin zc ⟨g, f + d, n⟩ i =
      sensor_cond_reading_raw sin zc ⟨g, f, n⟩ i - 800 * d ∧
    sensor_ph_reading sin zp ⟨g, f, n⟩ i <
      sensor_ph_reading sin zp ⟨g, f + d, n⟩ i ∧
    sensor_cond_reading_raw sin zc ⟨g, f + d, n⟩ i <
      sensor_cond_reading_raw sin zc ⟨g, f, n⟩ i := by
  unfold sensor_ph_reading sensor_cond_reading_raw pino_ph_target
    pino_cond_target ph_drift cond_attenuation normalDraw
  dsimp only
  refine ⟨by ring, by ring, by linarith, by linarith⟩

/-- Witness for C8 at `g = 0`, `f = 0`, `n = 1/100`, `d = 1`, index 0,
zero sine and zero noise. -/
theorem C8_fouling_opposite_witness :
    (0 : ℚ) < 1 ∧
    (sensor_ph_reading (fun _ => 0) (fun _ => 0) ⟨0, 0 + 1, 1/100⟩ 0 =
      sensor_ph_reading (fun _ => 0) (fun _ => 0) ⟨0, 0, 1/100⟩ 0 + 1.5 * 1 ∧
    sensor_cond_reading_raw (fun _ => 0) (fun _ => 0) ⟨0, 0 + 1, 1/100⟩ 0 =
      sensor_cond_reading_raw (fun _ => 0) (fun _ => 0) ⟨0, 0, 1/100⟩ 0 - 800 * 1 ∧
    sensor_ph_reading (fun _ => 0) (fun _ => 0) ⟨0, 0, 1/100⟩ 0 <
      sensor_ph_reading (fun _ => 0) (fun _ => 0) ⟨0, 0 + 1, 1/100⟩ 0 ∧
    sensor_cond_reading_raw (fun _ => 0) (fun _ => 0) ⟨0, 0 + 1, 1/100⟩ 0 <
      sensor_cond_reading_raw (fun _ => 0) (fun _ => 0) ⟨0, 0, 1/100⟩ 0) :=
  ⟨by norm_num,
    C8_fouling_opposite (fun _ => 0) (fun _ => 0) (fun _ => 0) 0 0 (1/100) 1
      (by norm_num) 0⟩

/-- Claim C9: the generator is a pure function of the inputs and the
seeded noise stream: two calls with equal inputs and equal seeds
produce identical target and reading sequences for both channels. -/
theorem C9_deterministic (sin : ℚ → ℚ) (stream : ℕ → ℕ → ℚ)
    (seed seed2 : ℕ) (p p2 : SimulationInputs)
    (hs : seed = seed2) (hp : p = p2) :
    generate sin stream seed p = generate sin stream seed2 p2 := by
  rw [hs, hp]

/-- Witness for C9: two calls at seed 0 with the default slider values
agree. -/
theorem C9_deterministic_witness :
    (0 : ℕ) = 0 ∧ (⟨1/2, 1/5, 1/50⟩ : SimulationInputs) = ⟨1/2, 1/5, 1/50⟩ ∧
    generate (fun _ => 0) (fun _ _ => 0) 0 ⟨1/2, 1/5, 1/50⟩ =
      generate (fun _ => 0) (fun _ _ => 0) 0 ⟨1/2, 1/5, 1/50⟩ :=
  ⟨rfl, rfl,
    C9_deterministic (fun _ => 0) (fun _ _ => 0) 0 0 ⟨1/2, 1/5, 1/50⟩
      ⟨1/2, 1/5, 1/50⟩ rfl rfl⟩

/-- Claim C10: the `HIGH_SATURATION_RISK` flag depends only on the gas
load: any two runs that agree on `gasLoad` produce the same flag,
whatever their fouling factors, noise levels and noise draws. -/
theorem C10_saturation_only_gas (sin : ℚ → ℚ) (z z2 : ℕ → ℚ)
    (p p2 : SimulationInputs) (h : p.gasLoad = p2.gasLoad) :
    (cond_report sin z p).high_saturation_risk =
      (cond_report sin z2 p2).high_saturation_risk := by
  simp only [cond_report]
  rw [h]

/-- Witness for C10: two runs with gas load 1/2 but different fouling,
noise level and draws give the same saturation flag. -/
theorem C10_saturation_only_gas_witness :
    (⟨1/2, 0, 1/100⟩ : SimulationInputs).gasLoad =
      (⟨1/2, 1, 1/10⟩ : SimulationInputs).gasLoad ∧
    (cond_report (fun _ => 0) (fun _ => 0) ⟨1/2, 0, 1/100⟩).high_saturation_risk =
      (cond_report (fun _ => 0) (fun _ => 1) ⟨1/2, 1, 1/10⟩).high_saturation_risk :=
  ⟨rfl,
    C10_saturation_only_gas (fun _ => 0) (fun _ => 0) (fun _ => 1)
      ⟨1/2, 0, 1/100⟩ ⟨1/2, 1, 1/10⟩ rfl⟩

end STapp
